import Mathlib

/-!
Shallow embedding of `libvscode-diff` (files `src/diff_api.c` and
`include/diff_api.h`).  The library exposes a single nullary operation,

  `const char *diff_api_get_version(void) { return "0.3.0"; }`

A C string literal is a statically allocated, null-terminated byte array;
we model it as a `List Nat` of its bytes including the terminating null.
A `const char *` result is modelled as `Option (List Nat)`: `none` models
the NULL pointer, `some bs` models a valid pointer to the byte array `bs`.
The translation unit `diff_api.c` declares no mutable globals, so the
library state is an empty structure and the stateful form of the call is
explicit state passing that can be iterated to model repeated invocations
within one process.
-/

namespace CodeDiff

/-- Bytes of the static string literal `"0.3.0"` in `diff_api.c`,
including the terminating null byte, as laid out in read-only storage. -/
def version_literal : List Nat := [0x30, 0x2E, 0x33, 0x2E, 0x30, 0x00]

/-- Embedding of `diff_api_get_version`: the function body is
`return "0.3.0";`, i.e. it returns a (non-null) pointer to the static
literal. -/
def diff_api_get_version : Option (List Nat) := some version_literal

/-- Content of a C string: the bytes strictly before the first null byte
(the semantics of reading a `const char *` as text, as `strlen` does). -/
def cstr_content : List Nat → List Nat
  | [] => []
  | b :: bs => if b = 0 then [] else b :: cstr_content bs

/-- Length of a C string excluding the null terminator (`strlen`). -/
def cstrlen (s : List Nat) : Nat := (cstr_content s).length

/-- A stored byte array is null-terminated when it contains a null byte,
so that reading it as a C string is defined. -/
def isNullTerminated (s : List Nat) : Bool := s.contains 0

/-- Every content byte of the string is an ASCII code point (< 128). -/
def allAscii (s : List Nat) : Bool := (cstr_content s).all (fun b => b < 128)

/-- Decode a list of ASCII byte values into a Lean string. -/
def decode_ascii (bs : List Nat) : String := String.mk (bs.map Char.ofNat)

/-- ASCII decimal digit test on a byte value. -/
def isDigitByte (b : Nat) : Bool := 48 ≤ b && b ≤ 57

/-- Split a byte list on the dot byte (0x2E); always returns at least one
(possibly empty) component. -/
def splitDot : List Nat → List (List Nat)
  | [] => [[]]
  | 46 :: bs => [] :: splitDot bs
  | b :: bs =>
    match splitDot bs with
    | [] => [[b]]
    | c :: cs => (b :: c) :: cs

/-- Semantic-version shape as the spec states it: exactly three components
separated by two dots, each component non-empty and all decimal digits. -/
def isSemVer (bs : List Nat) : Bool :=
  let cs := splitDot bs
  cs.length == 3 && cs.all (fun c => !c.isEmpty && c.all isDigitByte)

/-- The library's mutable state: `diff_api.c` defines no mutable globals,
so the state carries no fields. -/
structure LibState where
  deriving DecidableEq, Inhabited

/-- Stateful form of `diff_api_get_version`: the call takes the library
state and returns the (possibly updated) state together with the returned
pointer.  The C body only returns the static literal, touching no state. -/
def diff_api_get_version_call (s : LibState) : LibState × Option (List Nat) :=
  (s, diff_api_get_version)

/-- Results of `n` successive invocations of `diff_api_get_version`
within one process, threading the library state through the calls. -/
def runCalls : Nat → LibState → List (Option (List Nat))
  | 0, _ => []
  | n + 1, s =>
    let (s', r) := diff_api_get_version_call s
    r :: runCalls n s'

/-- Interleaved execution of concurrent callers: a schedule is the order
in which the threads' (atomic, read-only) calls hit the library; each
entry of the result pairs a thread id with the pointer that thread got. -/
def runSchedule : List Nat → LibState → LibState × List (Nat × Option (List Nat))
  | [], s => (s, [])
  | t :: ts, s =>
    let (s', r) := diff_api_get_version_call s
    let (s'', rest) := runSchedule ts s'
    (s'', (t, r) :: rest)

/-- Helper: every result in a run of successive calls is the pointer to
the static literal. -/
theorem mem_runCalls_eq (n : Nat) (s : LibState) (r : Option (List Nat))
    (h : r ∈ runCalls n s) : r = some version_literal := by
  induction n generalizing s with
  | zero => simp [runCalls] at h
  | succ n ih =>
    simp only [runCalls, diff_api_get_version_call, List.mem_cons] at h
    rcases h with h | h
    · exact h
    · exact ih s h

/-- Helper: a whole schedule of interleaved calls leaves the library
state unchanged. -/
theorem runSchedule_fst (sched : List Nat) (s : LibState) :
    (runSchedule sched s).1 = s := by
  induction sched generalizing s with
  | nil => rfl
  | cons a as ih => simp [runSchedule, diff_api_get_version_call, ih s]

/-- Helper: every pointer observed by any thread in any interleaving is
the pointer to the static literal. -/
theorem mem_runSchedule_eq (sched : List Nat) (s : LibState) (t : Nat)
    (r : Option (List Nat)) (h : (t, r) ∈ (runSchedule sched s).2) :
    r = some version_literal := by
  induction sched generalizing s with
  | nil => simp [runSchedule] at h
  | cons a as ih =>
    simp only [runSchedule, diff_api_get_version_call, List.mem_cons] at h
    rcases h with h | h
    · exact congrArg Prod.snd h
    · exact ih s h

/-- C1: calling `diff_api_get_version` with no arguments returns a pointer
whose C-string content decodes to exactly the five characters `"0.3.0"`. -/
theorem get_version_returns_0_3_0 :
    diff_api_get_version.map (fun p => decode_ascii (cstr_content p)) =
      some "0.3.0" := by
  decide

/-- C2: `diff_api_get_version` is deterministic: in any sequence of
invocations within one process, from any library state, every returned
result is byte-for-byte identical to every other. -/
theorem get_version_deterministic (n : Nat) (s : LibState)
    (r₁ r₂ : Option (List Nat))
    (h₁ : r₁ ∈ runCalls n s) (h₂ : r₂ ∈ runCalls n s) : r₁ = r₂ := by
  rw [mem_runCalls_eq n s r₁ h₁, mem_runCalls_eq n s r₂ h₂]

/-- Witness for C2 at a concrete run of two calls. -/
theorem get_version_deterministic_witness :
    some version_literal ∈ runCalls 2 ⟨⟩ ∧
      some version_literal = some version_literal :=
  ⟨by decide,
    get_version_deterministic 2 ⟨⟩ (some version_literal)
      (some version_literal) (by decide) (by decide)⟩

/-- C3: `diff_api_get_version` is total and cannot fail: from every
library state the call returns normally with a value (never an error,
never NULL), leaving the state as it was. -/
theorem get_version_total (s : LibState) :
    ∃ v, diff_api_get_version_call s = (s, some v) :=
  ⟨version_literal, rfl⟩

/-- C4: the string returned by every call to `diff_api_get_version` is
non-empty: its length is at least one character. -/
theorem get_version_nonempty (p : List Nat)
    (h : diff_api_get_version = some p) : 1 ≤ cstrlen p := by
  have hp : p = version_literal := by
    simpa [diff_api_get_version] using h.symm
  subst hp; decide

/-- Witness for C4 at the actual returned pointer. -/
theorem get_version_nonempty_witness :
    diff_api_get_version = some version_literal ∧ 1 ≤ cstrlen version_literal :=
  ⟨rfl, get_version_nonempty version_literal rfl⟩

/-- C5: the string returned by `diff_api_get_version` matches the
`MAJOR.MINOR.PATCH` pattern: three non-empty all-digit components
separated by exactly two dots. -/
theorem get_version_semver (p : List Nat)
    (h : diff_api_get_version = some p) : isSemVer (cstr_content p) = true := by
  have hp : p = version_literal := by
    simpa [diff_api_get_version] using h.symm
  subst hp; decide

/-- Witness for C5 at the actual returned pointer. -/
theorem get_version_semver_witness :
    diff_api_get_version = some version_literal ∧
      isSemVer (cstr_content version_literal) = true :=
  ⟨rfl, get_version_semver version_literal rfl⟩

/-- C6: `diff_api_get_version` has no observable side effects: the
library state after a call is identical to the state before it, for any
state. -/
theorem get_version_no_side_effects (s : LibState) :
    (diff_api_get_version_call s).1 = s := rfl

/-- C7: the value returned by `diff_api_get_version` is null-terminated
ASCII text: the stored bytes contain a terminating null and every content
byte is an ASCII code point. -/
theorem get_version_ascii (p : List Nat)
    (h : diff_api_get_version = some p) :
    isNullTerminated p = true ∧ allAscii p = true := by
  have hp : p = version_literal := by
    simpa [diff_api_get_version] using h.symm
  subst hp; exact ⟨by decide, by decide⟩

/-- Witness for C7 at the actual returned pointer. -/
theorem get_version_ascii_witness :
    diff_api_get_version = some version_literal ∧
      isNullTerminated version_literal = true ∧
      allAscii version_literal = true :=
  ⟨rfl, get_version_ascii version_literal rfl⟩

/-- C8: concurrent callers need no synchronization: under every
interleaving of the threads' calls, from any state, every thread's result
decodes to `"0.3.0"`, and the library state is untouched by the whole
schedule (the operation only reads the immutable constant). -/
theorem get_version_concurrent_safe (sched : List Nat) (s : LibState)
    (t : Nat) (r : Option (List Nat))
    (h : (t, r) ∈ (runSchedule sched s).2) :
    r.map (fun p => decode_ascii (cstr_content p)) = some "0.3.0" ∧
      (runSchedule sched s).1 = s := by
  refine ⟨?_, runSchedule_fst sched s⟩
  rw [mem_runSchedule_eq sched s t r h]
  decide

/-- Witness for C8 on a concrete three-thread schedule. -/
theorem get_version_concurrent_safe_witness :
    (7, some version_literal) ∈ (runSchedule [7, 7, 7] ⟨⟩).2 ∧
      (some version_literal).map (fun p => decode_ascii (cstr_content p)) =
        some "0.3.0" ∧
      (runSchedule [7, 7, 7] (⟨⟩ : LibState)).1 = ⟨⟩ :=
  ⟨by decide,
    get_version_concurrent_safe [7, 7, 7] ⟨⟩ 7 (some version_literal)
      (by decide)⟩

/-- C9: `diff_api_get_version` never returns a null pointer: the returned
reference always designates an actual string value. -/
theorem get_version_not_null : diff_api_get_version ≠ none := by
  decide

/-- C10: the string returned by `diff_api_get_version` has length exactly
5 characters, excluding the null terminator. -/
theorem get_version_length_five (p : List Nat)
    (h : diff_api_get_version = some p) : cstrlen p = 5 := by
  have hp : p = version_literal := by
    simpa [diff_api_get_version] using h.symm
  subst hp; decide

/-- Witness for C10 at the actual returned pointer. -/
theorem get_version_length_five_witness :
    diff_api_get_version = some version_literal ∧
      cstrlen version_literal = 5 :=
  ⟨rfl, get_version_length_five version_literal rfl⟩

end CodeDiff
